import Mathlib

/-!
Verification of the memory-aware inference scheduler of
HunyuanVideo-Avatar-minimal.

This file shallowly embeds, in Lean, the parts of the repository that the
verified properties are about:

* the quality-preset table and the hardware-tier classifier of
  `config_minimal.py`;
* the single-flight admission gate (the `/predict2` handler) and the
  multi-rank request wrapper `predict_wrap` of
  `hymm_gradio/fastapi_server.py`;
* the ultra-low-memory generation executor
  `process_batch_ultra_low_memory` and the configuration-application step
  of `load_models_with_offloading` in `hymm_sp/low_memory_inference.py`.

Opaque collaborators (the model invocation, preprocessing, hardware
detection) are parameters of the embedded functions: an embedded function
takes, for each opaque call the Python makes, a description of that
call's outcome, and the control flow around those calls is translated
from the Python source line by line.
-/

namespace ConfigMinimal

/-- A quality preset, one entry of `QUALITY_PRESETS` in
`config_minimal.py` (lines 36-91).  `guidance_scale` is stored in tenths
(`6.0` becomes `60`) so the embedding stays in `Nat`.  Keys that are
absent from some of the Python dicts (`enable_8bit`, `enable_cpu_cache`)
are `Option Bool`, with `none` meaning the key is absent. -/
structure QualityPreset where
  image_size : Nat
  video_length : Nat
  num_inference_steps : Nat
  guidance_scale_tenths : Nat
  cpu_offload : Bool
  mixed_precision : Bool
  infer_min : Bool
  enable_8bit : Option Bool
  enable_cpu_cache : Option Bool
  max_split_size_mb : Nat
  vae_slice_size : Nat
  attention_slice_size : Nat
  deriving DecidableEq, Repr

/-- `QUALITY_PRESETS["ultra_minimal_4gb"]` (config_minimal.py lines 37-50). -/
def ultra_minimal_4gb : QualityPreset :=
  { image_size := 128
    video_length := 8
    num_inference_steps := 15
    guidance_scale_tenths := 60
    cpu_offload := true
    mixed_precision := true
    infer_min := true
    enable_8bit := some true
    enable_cpu_cache := some true
    max_split_size_mb := 128
    vae_slice_size := 1
    attention_slice_size := 1 }

/-- `QUALITY_PRESETS["ultra_low_vram"]` (config_minimal.py lines 52-64). -/
def ultra_low_vram : QualityPreset :=
  { image_size := 256
    video_length := 16
    num_inference_steps := 20
    guidance_scale_tenths := 75
    cpu_offload := true
    mixed_precision := true
    infer_min := true
    enable_8bit := some false
    enable_cpu_cache := none
    max_split_size_mb := 256
    vae_slice_size := 2
    attention_slice_size := 2 }

/-- `QUALITY_PRESETS["low_vram"]` (config_minimal.py lines 66-77). -/
def low_vram : QualityPreset :=
  { image_size := 384
    video_length := 32
    num_inference_steps := 25
    guidance_scale_tenths := 75
    cpu_offload := true
    mixed_precision := true
    infer_min := false
    enable_8bit := none
    enable_cpu_cache := none
    max_split_size_mb := 512
    vae_slice_size := 4
    attention_slice_size := 4 }

/-- `QUALITY_PRESETS["balanced"]` (config_minimal.py lines 79-90). -/
def balanced : QualityPreset :=
  { image_size := 512
    video_length := 64
    num_inference_steps := 30
    guidance_scale_tenths := 75
    cpu_offload := true
    mixed_precision := true
    infer_min := false
    enable_8bit := none
    enable_cpu_cache := none
    max_split_size_mb := 1024
    vae_slice_size := 8
    attention_slice_size := 8 }

/-- The outcome of the hardware probe inside `get_recommended_config`:
the `import torch` / CUDA query may raise (the bare `except` on line 112
of config_minimal.py), CUDA may be unavailable, or the device may report
a total memory in bytes. -/
inductive HardwareDetection where
  | throws
  | noCuda
  | cuda (totalMemoryBytes : Nat)
  deriving DecidableEq, Repr

/-- One gibibyte, the divisor `1024**3` used by `get_recommended_config`. -/
def gb : Nat := 1024 ^ 3

/-- `get_recommended_config` from `config_minimal.py` (lines 94-114).
The Python compares `total_memory / 1024**3 <= k` over the reals, which
for nonnegative values is equivalent to the integer comparison
`total_memory <= k * 1024**3` used here. -/
def get_recommended_config : HardwareDetection → QualityPreset
  | .throws => ultra_minimal_4gb
  | .noCuda => ultra_minimal_4gb
  | .cuda total =>
    if total ≤ 6 * gb then ultra_minimal_4gb
    else if total ≤ 8 * gb then ultra_low_vram
    else if total ≤ 12 * gb then low_vram
    else balanced

/-- The ordered set of operating tiers realised by `QUALITY_PRESETS`,
ordered by capability (`ultra_minimal` weakest). -/
inductive Tier where
  | ultra_minimal
  | ultra_low
  | low
  | balanced
  deriving DecidableEq, Repr, Fintype

/-- Position of a tier in the capability ordering. -/
def Tier.position : Tier → Nat
  | .ultra_minimal => 0
  | .ultra_low => 1
  | .low => 2
  | .balanced => 3

/-- The baseline preset of each tier, from `QUALITY_PRESETS`. -/
def Tier.preset : Tier → QualityPreset
  | .ultra_minimal => ultra_minimal_4gb
  | .ultra_low => ultra_low_vram
  | .low => low_vram
  | .balanced => ConfigMinimal.balanced

/-- Claim C5: a measured accelerator capacity of 8 000 000 000 bytes with
no live free-memory signal selects the `ultra_low_vram` preset, whose
resolution is 256, clip length 16 and inference step count 20. -/
theorem capacity_8e9_selects_ultra_low_preset :
    get_recommended_config (HardwareDetection.cuda 8000000000) = ultra_low_vram ∧
    ultra_low_vram.image_size = 256 ∧
    ultra_low_vram.video_length = 16 ∧
    ultra_low_vram.num_inference_steps = 20 := by
  refine ⟨?_, rfl, rfl, rfl⟩
  have h6 : ¬ (8000000000 ≤ 6 * gb) := by decide
  have h8 : 8000000000 ≤ 8 * gb := by decide
  simp [get_recommended_config, h6, h8]

/-- Claim C6: for every detection outcome the classifier returns one of
the four fixed presets and never raises; when detection itself throws,
or when no accelerator is present, it returns the most conservative
preset `ultra_minimal_4gb`. -/
theorem get_recommended_config_total_and_conservative (d : HardwareDetection) :
    (get_recommended_config d = ultra_minimal_4gb ∨
     get_recommended_config d = ultra_low_vram ∨
     get_recommended_config d = low_vram ∨
     get_recommended_config d = balanced) ∧
    get_recommended_config HardwareDetection.throws = ultra_minimal_4gb ∧
    get_recommended_config HardwareDetection.noCuda = ultra_minimal_4gb := by
  refine ⟨?_, rfl, rfl⟩
  cases d with
  | throws => exact Or.inl rfl
  | noCuda => exact Or.inl rfl
  | cuda total =>
    simp only [get_recommended_config]
    split_ifs
    · exact Or.inl rfl
    · exact Or.inr (Or.inl rfl)
    · exact Or.inr (Or.inr (Or.inl rfl))
    · exact Or.inr (Or.inr (Or.inr rfl))

/-- Claim C7: the preset table is monotone in the tier ordering: a higher
tier never has a strictly worse value on any field — the numeric fields
(resolution, clip length, step count, guidance, split size, slice sizes)
are nondecreasing, the offload and precision flags agree on all tiers,
and the restriction flags (`infer_min`, `enable_8bit`,
`enable_cpu_cache`) only ever switch off as the tier grows. -/
theorem presets_monotone_in_tier (t1 t2 : Tier) (h : t1.position ≤ t2.position) :
    t1.preset.image_size ≤ t2.preset.image_size ∧
    t1.preset.video_length ≤ t2.preset.video_length ∧
    t1.preset.num_inference_steps ≤ t2.preset.num_inference_steps ∧
    t1.preset.guidance_scale_tenths ≤ t2.preset.guidance_scale_tenths ∧
    t1.preset.max_split_size_mb ≤ t2.preset.max_split_size_mb ∧
    t1.preset.vae_slice_size ≤ t2.preset.vae_slice_size ∧
    t1.preset.attention_slice_size ≤ t2.preset.attention_slice_size ∧
    t1.preset.cpu_offload = t2.preset.cpu_offload ∧
    t1.preset.mixed_precision = t2.preset.mixed_precision ∧
    (t2.preset.infer_min = true → t1.preset.infer_min = true) ∧
    (t2.preset.enable_8bit = some true → t1.preset.enable_8bit = some true) ∧
    (t2.preset.enable_cpu_cache = some true → t1.preset.enable_cpu_cache = some true) := by
  revert h
  revert t1 t2
  decide

/-- Witness for `presets_monotone_in_tier` at the extreme tier pair. -/
theorem presets_monotone_in_tier_witness :
    Tier.ultra_minimal.position ≤ Tier.balanced.position ∧
    (Tier.ultra_minimal.preset.image_size ≤ Tier.balanced.preset.image_size ∧
     Tier.ultra_minimal.preset.video_length ≤ Tier.balanced.preset.video_length ∧
     Tier.ultra_minimal.preset.num_inference_steps ≤ Tier.balanced.preset.num_inference_steps ∧
     Tier.ultra_minimal.preset.guidance_scale_tenths ≤ Tier.balanced.preset.guidance_scale_tenths ∧
     Tier.ultra_minimal.preset.max_split_size_mb ≤ Tier.balanced.preset.max_split_size_mb ∧
     Tier.ultra_minimal.preset.vae_slice_size ≤ Tier.balanced.preset.vae_slice_size ∧
     Tier.ultra_minimal.preset.attention_slice_size ≤ Tier.balanced.preset.attention_slice_size ∧
     Tier.ultra_minimal.preset.cpu_offload = Tier.balanced.preset.cpu_offload ∧
     Tier.ultra_minimal.preset.mixed_precision = Tier.balanced.preset.mixed_precision ∧
     (Tier.balanced.preset.infer_min = true → Tier.ultra_minimal.preset.infer_min = true) ∧
     (Tier.balanced.preset.enable_8bit = some true →
       Tier.ultra_minimal.preset.enable_8bit = some true) ∧
     (Tier.balanced.preset.enable_cpu_cache = some true →
       Tier.ultra_minimal.preset.enable_cpu_cache = some true)) :=
  ⟨by decide, presets_monotone_in_tier Tier.ultra_minimal Tier.balanced (by decide)⟩

end ConfigMinimal

namespace FastapiServer

/-- A JSON-style response of the `/predict2` endpoint, reduced to the two
fields every response carries (`errCode`, `info`). -/
structure Response where
  errCode : Int
  info : String
  deriving DecidableEq, Repr

/-- The literal `{"errCode": -1, "info": "broken"}` returned at the end of
`predict` (fastapi_server.py line 144). -/
def brokenResponse : Response := { errCode := -1, info := "broken" }

/-- Behaviour of the inner `predict_wrap(data)` call as observed by the
`/predict2` handler: it either returns a response or raises. -/
inductive WrapBehavior where
  | returns (r : Response)
  | throws
  deriving DecidableEq, Repr

/-- Observable effect of one call to the `/predict2` handler: the
response sent back, whether the admission permit is still held after the
handler returns, and whether `predict_wrap` was invoked at all. -/
structure PredictRun where
  response : Response
  permitHeldAfter : Bool
  wrapInvoked : Bool
  deriving DecidableEq, Repr

/-- Shallow embedding of `predict` in `hymm_gradio/fastapi_server.py`
(lines 129-144).  `permitHeld` states whether another request currently
holds `rlock`, in which case `rlock.acquire(blocking=False)` returns
`False`.  When the permit is free the handler acquires it, calls
`predict_wrap`, catches any exception, and the `finally` clause releases
the permit (`if is_acquire: rlock.release()`); when `predict_wrap` raised
or the permit was busy, control falls through to the broken response. -/
def predict (permitHeld : Bool) (wrap : WrapBehavior) : PredictRun :=
  if permitHeld then
    { response := brokenResponse, permitHeldAfter := permitHeld, wrapInvoked := false }
  else
    match wrap with
    | .returns r => { response := r, permitHeldAfter := false, wrapInvoked := true }
    | .throws => { response := brokenResponse, permitHeldAfter := false, wrapInvoked := true }

/-- Claim C2: a request arriving while the permit is held gets the busy
response `{errCode: -1, info: "broken"}` immediately, with no
`predict_wrap` invocation and the holder's permit untouched; and whenever
the handler did acquire the permit it has released it by the time it
returns, whether `predict_wrap` returned or raised. -/
theorem predict_busy_rejected_and_permit_released (wrap : WrapBehavior) :
    predict true wrap =
      { response := brokenResponse, permitHeldAfter := true, wrapInvoked := false } ∧
    (predict false wrap).permitHeldAfter = false := by
  cases wrap <;> exact ⟨rfl, rfl⟩

/-- What happens on rank 0 in the first `try` block of `predict_wrap`
(fastapi_server.py lines 151-247), before the collective broadcast on
line 262: the input dict may be missing the image or audio path (the
`errCode: -3` branch), `data_preprocess_server` may raise (the
`errCode: -2` branch), any other exception may escape the outer `try`
(the `errCode: -1` "failed to preprocess" branch), or preprocessing may
succeed. -/
inductive Rank0Phase1 where
  | missingPath
  | preprocessRaises
  | otherRaises
  | ok
  deriving DecidableEq, Repr

/-- The value `predict_wrap` returns on rank 0: a typed error dict with a
negative `errCode`, or the success dict built by `process_output_dict`. -/
inductive Rank0Return where
  | errorDict (errCode : Int)
  | outputDict
  deriving DecidableEq, Repr

/-- Observable effect of one rank-0 run of `predict_wrap`: the returned
value and whether rank 0 reached the collective
`dist.broadcast_object_list(broadcast_params, src=0)` on line 262. -/
structure Rank0Run where
  returned : Rank0Return
  broadcastPerformed : Bool
  deriving DecidableEq, Repr

/-- Shallow embedding of the rank-0 control flow of `predict_wrap`
(fastapi_server.py lines 146-299).  Every failure of the first phase
returns its error dict directly from inside the first `try` block —
lines 179 (`errCode: -3`), 201 (`errCode: -2`) and 247 (`errCode: -1`)
— so control never reaches the broadcast on line 262 on those paths.
Only when phase 1 succeeds is the broadcast performed, after which
`generate_image_parallel` either succeeds (line 283 returns the output
dict) or raises (line 297 returns `errCode: -1`). -/
def rank0_predict_wrap (p : Rank0Phase1) (generateFails : Bool) : Rank0Run :=
  match p with
  | .missingPath => { returned := .errorDict (-3), broadcastPerformed := false }
  | .preprocessRaises => { returned := .errorDict (-2), broadcastPerformed := false }
  | .otherRaises => { returned := .errorDict (-1), broadcastPerformed := false }
  | .ok =>
    if generateFails then { returned := .errorDict (-1), broadcastPerformed := true }
    else { returned := .outputDict, broadcastPerformed := true }

/-- Claim C3, counterexample: when rank 0 receives an invalid input
(missing image or audio path), `predict_wrap` returns the `errCode: -3`
dict without ever performing the collective broadcast — no sentinel
values are sent to the other ranks, contradicting the claim that every
pre-broadcast failure still performs the broadcast. -/
theorem rank0_invalid_input_returns_without_broadcast :
    rank0_predict_wrap Rank0Phase1.missingPath false =
      { returned := Rank0Return.errorDict (-3), broadcastPerformed := false } := rfl

/-- Claim C3, amended: rank 0 performs the collective broadcast exactly
when the pre-broadcast phase succeeds; on every pre-broadcast failure
(invalid input, preprocessing failure, or any other exception) it
returns a typed error dict without broadcasting, so non-zero ranks
blocked at the broadcast are not released. -/
theorem rank0_broadcast_iff_phase1_ok (p : Rank0Phase1) (generateFails : Bool) :
    ((rank0_predict_wrap p generateFails).broadcastPerformed = true ↔ p = Rank0Phase1.ok) ∧
    (rank0_predict_wrap Rank0Phase1.missingPath generateFails).returned =
      Rank0Return.errorDict (-3) ∧
    (rank0_predict_wrap Rank0Phase1.preprocessRaises generateFails).returned =
      Rank0Return.errorDict (-2) ∧
    (rank0_predict_wrap Rank0Phase1.otherRaises generateFails).returned =
      Rank0Return.errorDict (-1) := by
  cases p <;> cases generateFails <;> refine ⟨⟨?_, ?_⟩, rfl, rfl, rfl⟩ <;> simp [rank0_predict_wrap]

end FastapiServer

namespace LowMemoryInference

/-- The argument fields that `load_models_with_offloading` fills from the
recommended preset (`hymm_sp/low_memory_inference.py` lines 112-124),
before resolution: `none` models an attribute that is missing or `None`
on the parsed command line. -/
structure CliArgs where
  image_size : Option Nat
  cpu_offload : Option Bool
  mixed_precision : Option Bool
  infer_min : Option Bool
  deriving DecidableEq, Repr

/-- The same fields after `load_models_with_offloading` has applied the
recommended preset. -/
structure ResolvedArgs where
  image_size : Nat
  cpu_offload : Bool
  mixed_precision : Bool
  infer_min : Bool
  deriving DecidableEq, Repr

/-- The configuration-application step of `load_models_with_offloading`
(`hymm_sp/low_memory_inference.py` lines 112-124): each field is taken
from the command line when present and otherwise from the recommended
preset (`config.get(...)`); `cpu_offload`, when present on the command
line, is additionally forced on if the preset asks for offloading
(`args.cpu_offload = args.cpu_offload or config.get('cpu_offload', True)`). -/
def apply_config_to_args (args : CliArgs) (config : ConfigMinimal.QualityPreset) :
    ResolvedArgs :=
  { image_size := args.image_size.getD config.image_size
    cpu_offload :=
      match args.cpu_offload with
      | none => config.cpu_offload
      | some c => c || config.cpu_offload
    mixed_precision := args.mixed_precision.getD config.mixed_precision
    infer_min := args.infer_min.getD config.infer_min }

/-- Claim C8, counterexample: a command-line resolution of 1024 under the
`ultra_low_vram` preset (tier ceiling 256) is kept verbatim — the
resolver performs no clamping, and the resulting resolution exceeds the
tier ceiling. -/
theorem image_size_override_exceeds_tier_ceiling :
    (apply_config_to_args
        { image_size := some 1024, cpu_offload := none,
          mixed_precision := none, infer_min := none }
        ConfigMinimal.ultra_low_vram).image_size = 1024 ∧
    ConfigMinimal.ultra_low_vram.image_size < 1024 := by
  exact ⟨rfl, by decide⟩

/-- Claim C8, amended: the resolver never raises and never clamps — a
field given on the command line is used verbatim (even above the tier's
value), the preset fills only the fields the command line left unset,
and a preset that asks for CPU offloading forces the resolved
`cpu_offload` on. -/
theorem overrides_used_verbatim_preset_fills_missing
    (args : CliArgs) (config : ConfigMinimal.QualityPreset) :
    (∀ n, args.image_size = some n → (apply_config_to_args args config).image_size = n) ∧
    (args.image_size = none →
      (apply_config_to_args args config).image_size = config.image_size) ∧
    (config.cpu_offload = true → (apply_config_to_args args config).cpu_offload = true) := by
  refine ⟨?_, ?_, ?_⟩
  · intro n hn
    simp [apply_config_to_args, hn]
  · intro hn
    simp [apply_config_to_args, hn]
  · intro hc
    cases hco : args.cpu_offload <;> simp [apply_config_to_args, hco, hc]

/-- Witness for `overrides_used_verbatim_preset_fills_missing`: an
explicit resolution of 512 under the `ultra_low_vram` preset resolves to
512. -/
theorem overrides_used_verbatim_preset_fills_missing_witness :
    (apply_config_to_args
        { image_size := some 512, cpu_offload := none,
          mixed_precision := none, infer_min := none }
        ConfigMinimal.ultra_low_vram).image_size = 512 :=
  (overrides_used_verbatim_preset_fills_missing
      { image_size := some 512, cpu_offload := none,
        mixed_precision := none, infer_min := none }
      ConfigMinimal.ultra_low_vram).1 512 rfl

/-- The argument fields read and written by
`process_batch_ultra_low_memory` (`hymm_sp/low_memory_inference.py`
lines 211-310).  `mixed_precision` is not touched by that function and
is carried along to state its frame condition. -/
structure Args where
  image_size : Nat
  cpu_offload : Bool
  infer_min : Bool
  mixed_precision : Bool
  deriving DecidableEq, Repr

/-- One invocation of the opaque `hunyuan_video_sampler.predict`,
recorded with the `args.image_size` and `batch["audio_len"][0]` in
effect at call time. -/
structure Call where
  image_size : Nat
  audio_len : Nat
  deriving DecidableEq, Repr

/-- Outcome of one `hunyuan_video_sampler.predict` call: success with
some number of generated frames (the extent of the frame dimension of
`samples['samples'][0]`), a `torch.cuda.OutOfMemoryError`, or any other
exception. -/
inductive PredictOutcome where
  | success (frames : Nat)
  | oom
  | otherError
  deriving DecidableEq, Repr

/-- How `process_batch_ultra_low_memory` terminates: it returns the
output path after writing `outputFrames` frames, or a non-OOM exception
from the first `predict` call propagates uncaught (only
`torch.cuda.OutOfMemoryError` is caught), or the emergency retry raised
and its exception is re-raised (`raise e2`). -/
inductive ExecResult where
  | ok (outputFrames : Nat)
  | firstCallRaised
  | retryRaised
  deriving DecidableEq, Repr

/-- Observable effect of one run of `process_batch_ultra_low_memory`:
how it terminated, the model invocations it made in order, the `args`
record after the run, the final `batch["audio_len"][0]`, whether the
OOM-handler's emergency cleanup ran, and whether the Whisper audio
encoder is host-resident after the run. -/
structure ExecState where
  result : ExecResult
  calls : List Call
  argsAfter : Args
  audioLenAfter : Nat
  emergencyCleanupRan : Bool
  whisperOnCpuAfter : Bool
  deriving DecidableEq, Repr

/-- The `infer_min` clamp applied to `batch["audio_len"][0]` on entry
(`batch["audio_len"][0] = min(129, batch["audio_len"][0])`, line 231). -/
def clampedAudioLen (args : Args) (audioLen : Nat) : Nat :=
  if args.infer_min then min 129 audioLen else audioLen

/-- The dynamic memory adjustment of lines 234-239: when
`get_dynamic_memory_config()` carries an `image_size` below the current
one, `args.image_size` is reduced to it.  `dyn` is the dynamic config's
`image_size` (`none` when the dynamic config carries no such key). -/
def dynAdjustedImageSize (args : Args) (dyn : Option Nat) : Nat :=
  match dyn with
  | some d => if d < args.image_size then d else args.image_size
  | none => args.image_size

/-- The first `hunyuan_video_sampler.predict` invocation (line 245),
made with the dynamically adjusted image size and the clamped audio
length. -/
def firstCall (args : Args) (audioLen : Nat) (dyn : Option Nat) : Call :=
  { image_size := dynAdjustedImageSize args dyn
    audio_len := clampedAudioLen args audioLen }

/-- The emergency retry invocation (line 263), made after the OOM
handler halved the image size with floor 128
(`args.image_size = max(128, args.image_size // 2)`, line 257) and
clamped the audio length to at most 64
(`batch["audio_len"][0] = min(64, batch["audio_len"][0])`, line 258). -/
def emergencyCall (args : Args) (audioLen : Nat) (dyn : Option Nat) : Call :=
  { image_size := max 128 (dynAdjustedImageSize args dyn / 2)
    audio_len := min 64 (clampedAudioLen args audioLen) }

/-- Shallow embedding of `process_batch_ultra_low_memory`
(`hymm_sp/low_memory_inference.py` lines 211-310).

* `model attempt call` is the outcome of the opaque
  `hunyuan_video_sampler.predict` call — `attempt` is 0 for the first
  invocation and 1 for the emergency retry;
* `dyn` is the `image_size` of `get_dynamic_memory_config()` when that
  dict carries one;
* `whisperOnCpu` is the residency of `wav2vec` on entry
  (`true` = host-resident).

The function: moves Whisper to the accelerator when offloaded
(lines 225-227), clamps the audio length under `infer_min` (line 231),
applies the dynamic image-size reduction (lines 235-239), invokes the
model (line 245); on `torch.cuda.OutOfMemoryError` it runs
`cleanup_memory()`, downgrades image size and audio length, retries
exactly once, re-raises the retry's exception on failure, and in all
cases restores `args.image_size` in the `finally` clause (lines
248-269); on a run that returns normally it moves Whisper back to the
host when offloading (lines 272-274) and trims the samples to the final
audio length (line 278). -/
def process_batch_ultra_low_memory
    (model : Nat → Call → PredictOutcome) (args : Args) (audioLen : Nat)
    (dyn : Option Nat) (whisperOnCpu : Bool) : ExecState :=
  let whisperMoved := if args.cpu_offload && whisperOnCpu then false else whisperOnCpu
  let audioLen1 := clampedAudioLen args audioLen
  let imageSize1 := dynAdjustedImageSize args dyn
  let args1 : Args := { args with image_size := imageSize1 }
  let call1 := firstCall args audioLen dyn
  match model 0 call1 with
  | .success frames =>
    { result := .ok (min frames audioLen1)
      calls := [call1]
      argsAfter := args1
      audioLenAfter := audioLen1
      emergencyCleanupRan := false
      whisperOnCpuAfter := if args.cpu_offload then true else whisperMoved }
  | .otherError =>
    { result := .firstCallRaised
      calls := [call1]
      argsAfter := args1
      audioLenAfter := audioLen1
      emergencyCleanupRan := false
      whisperOnCpuAfter := whisperMoved }
  | .oom =>
    let audioLen2 := min 64 audioLen1
    let call2 := emergencyCall args audioLen dyn
    match model 1 call2 with
    | .success frames =>
      { result := .ok (min frames audioLen2)
        calls := [call1, call2]
        argsAfter := { args1 with image_size := imageSize1 }
        audioLenAfter := audioLen2
        emergencyCleanupRan := true
        whisperOnCpuAfter := if args.cpu_offload then true else whisperMoved }
    | .oom =>
      { result := .retryRaised
        calls := [call1, call2]
        argsAfter := { args1 with image_size := imageSize1 }
        audioLenAfter := audioLen2
        emergencyCleanupRan := true
        whisperOnCpuAfter := whisperMoved }
    | .otherError =>
      { result := .retryRaised
        calls := [call1, call2]
        argsAfter := { args1 with image_size := imageSize1 }
        audioLenAfter := audioLen2
        emergencyCleanupRan := true
        whisperOnCpuAfter := whisperMoved }

end LowMemoryInference

namespace LowMemoryInference

/-- Claim C1: when the first model invocation raises an accelerator OOM,
the executor runs the emergency cleanup and retries exactly once — the
recorded invocation list is exactly the first call followed by the
emergency call — at an image size halved with the fixed floor equal to
the smallest tier's resolution and an audio length clamped to at most
64; the run aborts by re-raising (`retryRaised`) exactly when the retry
does not succeed, with no further downgrade attempt. -/
theorem oom_downgrade_retry_exactly_once
    (model : Nat → Call → PredictOutcome) (args : Args) (audioLen : Nat)
    (dyn : Option Nat) (whisperOnCpu : Bool)
    (h : model 0 (firstCall args audioLen dyn) = PredictOutcome.oom) :
    (process_batch_ultra_low_memory model args audioLen dyn whisperOnCpu).calls =
      [firstCall args audioLen dyn, emergencyCall args audioLen dyn] ∧
    (process_batch_ultra_low_memory model args audioLen dyn whisperOnCpu).emergencyCleanupRan
      = true ∧
    (emergencyCall args audioLen dyn).image_size =
      max ConfigMinimal.ultra_minimal_4gb.image_size
        ((firstCall args audioLen dyn).image_size / 2) ∧
    ConfigMinimal.ultra_minimal_4gb.image_size ≤ (emergencyCall args audioLen dyn).image_size ∧
    (emergencyCall args audioLen dyn).audio_len =
      min 64 (firstCall args audioLen dyn).audio_len ∧
    ((process_batch_ultra_low_memory model args audioLen dyn whisperOnCpu).result =
        ExecResult.retryRaised ↔
      ∀ frames, model 1 (emergencyCall args audioLen dyn) ≠ PredictOutcome.success frames) := by
  refine ⟨?_, ?_, rfl, le_max_left _ _, rfl, ?_⟩
  · cases h2 : model 1 (emergencyCall args audioLen dyn) <;>
      simp [process_batch_ultra_low_memory, h, h2]
  · cases h2 : model 1 (emergencyCall args audioLen dyn) <;>
      simp [process_batch_ultra_low_memory, h, h2]
  · cases h2 : model 1 (emergencyCall args audioLen dyn) with
    | success frames =>
      simp only [process_batch_ultra_low_memory, h, h2]
      constructor
      · intro hcon
        exact absurd hcon (by simp)
      · intro hall
        exact absurd rfl (hall frames)
    | oom => simp [process_batch_ultra_low_memory, h, h2]
    | otherError => simp [process_batch_ultra_low_memory, h, h2]

/-- Witness for `oom_downgrade_retry_exactly_once`: a model that always
raises OOM, at image size 256 and audio length 300. -/
theorem oom_downgrade_retry_exactly_once_witness :
    (fun _ _ => PredictOutcome.oom : Nat → Call → PredictOutcome) 0
      (firstCall ⟨256, true, true, true⟩ 300 none) = PredictOutcome.oom ∧
    ((process_batch_ultra_low_memory (fun _ _ => PredictOutcome.oom)
        ⟨256, true, true, true⟩ 300 none true).calls =
      [firstCall ⟨256, true, true, true⟩ 300 none,
       emergencyCall ⟨256, true, true, true⟩ 300 none] ∧
    (process_batch_ultra_low_memory (fun _ _ => PredictOutcome.oom)
        ⟨256, true, true, true⟩ 300 none true).emergencyCleanupRan = true ∧
    (emergencyCall ⟨256, true, true, true⟩ 300 none).image_size =
      max ConfigMinimal.ultra_minimal_4gb.image_size
        ((firstCall ⟨256, true, true, true⟩ 300 none).image_size / 2) ∧
    ConfigMinimal.ultra_minimal_4gb.image_size ≤
      (emergencyCall ⟨256, true, true, true⟩ 300 none).image_size ∧
    (emergencyCall ⟨256, true, true, true⟩ 300 none).audio_len =
      min 64 (firstCall ⟨256, true, true, true⟩ 300 none).audio_len ∧
    ((process_batch_ultra_low_memory (fun _ _ => PredictOutcome.oom)
        ⟨256, true, true, true⟩ 300 none true).result = ExecResult.retryRaised ↔
      ∀ frames, (fun _ _ => PredictOutcome.oom : Nat → Call → PredictOutcome) 1
        (emergencyCall ⟨256, true, true, true⟩ 300 none) ≠ PredictOutcome.success frames)) :=
  ⟨rfl, oom_downgrade_retry_exactly_once _ _ _ _ _ rfl⟩

/-- Claim C10: on the OOM recovery path the image-size downgrade is
temporary — whether the retry returns or raises, the `args` record after
the run carries the image size from before the downgrade (the value in
effect at the first invocation) and every other argument field
unchanged; the only other state the recovery path changes is the audio
length, clamped to at most 64. -/
theorem oom_recovery_restores_image_size
    (model : Nat → Call → PredictOutcome) (args : Args) (audioLen : Nat)
    (dyn : Option Nat) (whisperOnCpu : Bool)
    (h : model 0 (firstCall args audioLen dyn) = PredictOutcome.oom) :
    (process_batch_ultra_low_memory model args audioLen dyn whisperOnCpu).argsAfter =
      { args with image_size := dynAdjustedImageSize args dyn } ∧
    (process_batch_ultra_low_memory model args audioLen dyn whisperOnCpu).audioLenAfter =
      min 64 (clampedAudioLen args audioLen) := by
  cases h2 : model 1 (emergencyCall args audioLen dyn) <;>
    simp [process_batch_ultra_low_memory, h, h2]

/-- Witness for `oom_recovery_restores_image_size`: a model whose first
call raises OOM and whose retry succeeds, at image size 256. -/
theorem oom_recovery_restores_image_size_witness :
    (fun attempt _ => if attempt = 0 then PredictOutcome.oom else PredictOutcome.success 80 :
        Nat → Call → PredictOutcome) 0
      (firstCall ⟨256, true, true, true⟩ 300 none) = PredictOutcome.oom ∧
    ((process_batch_ultra_low_memory
        (fun attempt _ => if attempt = 0 then PredictOutcome.oom else PredictOutcome.success 80)
        ⟨256, true, true, true⟩ 300 none true).argsAfter =
      { (⟨256, true, true, true⟩ : Args) with
          image_size := dynAdjustedImageSize ⟨256, true, true, true⟩ none } ∧
    (process_batch_ultra_low_memory
        (fun attempt _ => if attempt = 0 then PredictOutcome.oom else PredictOutcome.success 80)
        ⟨256, true, true, true⟩ 300 none true).audioLenAfter =
      min 64 (clampedAudioLen ⟨256, true, true, true⟩ 300)) :=
  ⟨rfl, oom_recovery_restores_image_size _ _ _ _ _ rfl⟩

/-- Claim C4, counterexample: a run with `cpu_offload` enabled that fails
with a non-OOM model error does not restore the audio encoder's
residency — Whisper enters on the host (`whisperOnCpu = true`), is moved
to the accelerator for the run, and because only
`torch.cuda.OutOfMemoryError` is caught the exception propagates before
the release on lines 272-274, leaving Whisper accelerator-resident
(`whisperOnCpuAfter = false`). -/
theorem whisper_not_offloaded_after_failed_run :
    (process_batch_ultra_low_memory (fun _ _ => PredictOutcome.otherError)
        ⟨256, true, true, true⟩ 300 none true).result = ExecResult.firstCallRaised ∧
    (process_batch_ultra_low_memory (fun _ _ => PredictOutcome.otherError)
        ⟨256, true, true, true⟩ 300 none true).whisperOnCpuAfter = false := by
  exact ⟨rfl, rfl⟩

/-- Claim C4, amended: on every run that returns normally (success on
the first attempt or on the OOM retry) with `cpu_offload` enabled, the
audio encoder is released back to the host before the function returns;
on runs that raise, the exception propagates before the release and the
residency is not restored. -/
theorem whisper_offloaded_after_run_that_returns
    (model : Nat → Call → PredictOutcome) (args : Args) (audioLen : Nat)
    (dyn : Option Nat) (whisperOnCpu : Bool) (n : Nat)
    (hc : args.cpu_offload = true)
    (hr : (process_batch_ultra_low_memory model args audioLen dyn whisperOnCpu).result =
      ExecResult.ok n) :
    (process_batch_ultra_low_memory model args audioLen dyn whisperOnCpu).whisperOnCpuAfter
      = true := by
  cases h0 : model 0 (firstCall args audioLen dyn) with
  | success frames => simp [process_batch_ultra_low_memory, h0, hc]
  | otherError => simp [process_batch_ultra_low_memory, h0] at hr
  | oom =>
    cases h1 : model 1 (emergencyCall args audioLen dyn) with
    | success frames => simp [process_batch_ultra_low_memory, h0, h1, hc]
    | oom => simp [process_batch_ultra_low_memory, h0, h1] at hr
    | otherError => simp [process_batch_ultra_low_memory, h0, h1] at hr

/-- Witness for `whisper_offloaded_after_run_that_returns`: a model that
succeeds with 80 frames on the first attempt. -/
theorem whisper_offloaded_after_run_that_returns_witness :
    (⟨256, true, true, true⟩ : Args).cpu_offload = true ∧
    (process_batch_ultra_low_memory (fun _ _ => PredictOutcome.success 80)
        ⟨256, true, true, true⟩ 300 none true).result = ExecResult.ok 80 ∧
    (process_batch_ultra_low_memory (fun _ _ => PredictOutcome.success 80)
        ⟨256, true, true, true⟩ 300 none true).whisperOnCpuAfter = true :=
  ⟨rfl, by decide,
    whisper_offloaded_after_run_that_returns _ _ _ _ _ 80 rfl (by decide)⟩

end LowMemoryInference

namespace PostProcess

/-- Modelled from the spec: the audio preprocessing
(`hymm_sp/data_kits/audio_dataset.py` and `data_preprocess_server` in
`hymm_gradio/pipeline_utils.py`, neither present in this repository
snapshot) derives `audio_len`, the frame length of an
`audioSeconds`-second clip at `fps` frames per second, as
`floor(audioSeconds * fps)`. -/
def audioFrameLen (audioSeconds : ℚ) (fps : ℕ) : ℕ :=
  Nat.floor (audioSeconds * fps)

/-- The frame trim before video assembly: `sample[:, :, :audio_len]`
keeps the first `audio_len` entries of the frame dimension, fewer when
the tensor has fewer (Python slice semantics).  From
`hymm_gradio/fastapi_server.py` line 269 and
`hymm_sp/low_memory_inference.py` line 278. -/
def trimToAudioLen {α : Type} (frames : List α) (audioLen : ℕ) : List α :=
  frames.take audioLen

/-- Claim C9: when the model produced at least as many frames as the
audio-derived frame length `floor(audioSeconds * fps)`, the
post-processing trim cuts the sequence to exactly that length — the
audio length, not a fixed clip length, determines the final frame
count. -/
theorem frames_trimmed_to_audio_len {α : Type} (frames : List α)
    (audioSeconds : ℚ) (fps : ℕ)
    (h : audioFrameLen audioSeconds fps ≤ frames.length) :
    (trimToAudioLen frames (audioFrameLen audioSeconds fps)).length =
      audioFrameLen audioSeconds fps := by
  simp only [trimToAudioLen, List.length_take]
  exact Nat.min_eq_left h

/-- Witness for `frames_trimmed_to_audio_len`: a 2-second clip at 3
frames per second trims a 7-frame output to 6 frames. -/
theorem frames_trimmed_to_audio_len_witness :
    audioFrameLen 2 3 ≤ ([0, 1, 2, 3, 4, 5, 6] : List ℕ).length ∧
    (trimToAudioLen ([0, 1, 2, 3, 4, 5, 6] : List ℕ) (audioFrameLen 2 3)).length =
      audioFrameLen 2 3 :=
  ⟨by norm_num [audioFrameLen], frames_trimmed_to_audio_len _ 2 3 (by norm_num [audioFrameLen])⟩

end PostProcess
